import Mathlib

/-!
# Feature-store core: shallow embedding and verification

A shallow embedding of the feature-computation, versioning and
consistency-checking engine of the repository (files `app/cache.py`,
`app/consistency.py`, `app/feature_computer.py`, `app/main.py`,
`app/models.py`), together with theorems settling the spec claims.

Modelling conventions:
* Python scalar values are the inductive `PyVal`; Python `float` is modelled
  as a (finite) rational number, so floating-point special values (NaN/inf)
  are out of scope; pandas missing values (NaN cells) are modelled by the
  *absence* of a key in a record, and a Python `None` cell by `PyVal.none`.
* Records (dict rows) are association lists `List (String × PyVal)` with
  first-match lookup; a batch / DataFrame is a list of records.
* The database session is an explicit `Db` state threaded through the
  stateful operations; `db.commit()` corresponds to returning the new state.
* The cache is modelled on its in-memory fallback path (`_memory_cache`,
  Redis absent), which the spec declares transport-equivalent; `hashlib.md5`
  is embedded as a full MD5 implementation over byte lists
  (strings are ASCII in every key this service builds).
* pandas `groupby` aggregations are embedded with the classic (pre-2.0)
  `numeric_only` nuisance-column behaviour: `mean()`/`sum()` keep only
  columns of float, int or boolean dtype (bools aggregate as 0/1) and
  silently drop the rest; `first()` keeps every column; group keys that are
  missing/`None` are dropped. Dtype inference follows pandas: a column is
  `int64`/`float64` when every present non-null cell is an int or float,
  `bool` when every record holds a bool in it, and object otherwise (so a
  column mixing bools with numbers is object dtype and dropped). The
  `iterrows` common-dtype upcast of row values (which can render an integer
  entity key as `"1.0"` when every result column is numeric) is not
  modelled: entity ids are rendered from the original key values.
-/

/-- Python scalar value as it appears in JSON records: `int`, `float`
(modelled as ℚ), `str`, `bool`, or `None`. -/
inductive PyVal : Type where
  | int (n : Int)
  | float (q : ℚ)
  | str (s : String)
  | bool (b : Bool)
  | none
deriving DecidableEq, Repr

/-- Drop trailing `'0'` characters. -/
def dropTrailingZeros (l : List Char) : List Char :=
  (l.reverse.dropWhile (fun c => c = '0')).reverse

/-- Decimal rendering of a rational whose denominator divides a power of
ten (every exact binary float does): `15 ↦ "15.0"`, `7/2 ↦ "3.5"`,
`1/10 ↦ "0.1"`, matching Python `str(float)` on the idealized decimal
values. Returns `none` for denominators with other prime factors. -/
def decimalOfRat (q : ℚ) : Option String :=
  match (List.range (q.den + 1)).find? (fun k => 10 ^ k % q.den == 0) with
  | some k =>
      let digits0 := Nat.toDigits 10 (q.num.natAbs * 10 ^ k / q.den)
      let digits := List.replicate (k + 1 - digits0.length) '0' ++ digits0
      let frac := dropTrailingZeros (digits.drop (digits.length - k))
      some ((if q.num < 0 then "-" else "")
        ++ String.mk (digits.take (digits.length - k))
        ++ "." ++ String.mk (if frac.isEmpty then ['0'] else frac))
  | Option.none => Option.none

namespace PyVal

/-- Python `isinstance(v, int)` — `bool` is a subclass of `int`. -/
def isInstInt : PyVal → Bool
  | int _ => true
  | bool _ => true
  | _ => false

/-- Python `isinstance(v, (int, float))`. -/
def isInstNum : PyVal → Bool
  | int _ => true
  | float _ => true
  | bool _ => true
  | _ => false

/-- Python `isinstance(v, str)`. -/
def isInstStr : PyVal → Bool
  | str _ => true
  | _ => false

/-- Is this an `int64`/`float64`-dtype cell, i.e. an int or a float?
Bools form the separate `bool` dtype in pandas inference (a column mixing
bools with numbers is object dtype); see `isBoolCol`. -/
def isNum : PyVal → Bool
  | int _ => true
  | float _ => true
  | _ => false

/-- Value as a rational for aggregation: ints and floats carry their value,
bools aggregate as 0/1 (pandas averages boolean columns numerically). -/
def toRat : PyVal → ℚ
  | int n => (n : ℚ)
  | float q => q
  | bool b => if b then 1 else 0
  | _ => 0

/-- Python `str(v)`, as used for entity ids and cache-key arguments.
Floats are rendered as decimals via `decimalOfRat` (exact for every
denominator dividing a power of ten, which covers every exact binary
float). The `iterrows` common-dtype upcast — which can make `str(row[key])`
of an integer key read `"1.0"` when all result columns are numeric — is
not modelled: ids are rendered from the original key values. -/
def pyStr : PyVal → String
  | int n => toString n
  | float q =>
      match decimalOfRat q with
      | some s => s
      | Option.none => toString q.num ++ "/" ++ toString q.den
  | str s => s
  | bool b => if b then "True" else "False"
  | none => "None"

end PyVal

/-- A record (Python dict row): association list with first-match lookup. -/
abbrev Rec := List (String × PyVal)

/-- First-match lookup of a key in a record. -/
def recGet (r : Rec) (k : String) : Option PyVal :=
  match r with
  | [] => Option.none
  | (k', v) :: rest => if k' = k then some v else recGet rest k

/-- Does `pat` occur as a contiguous sublist of the character list? -/
def charsContain (pat : List Char) : List Char → Bool
  | [] => pat.isEmpty
  | c :: rest => pat.isPrefixOf (c :: rest) || charsContain pat rest

/-- Python `needle in hay` on strings (substring containment). -/
def strContains (hay needle : String) : Bool :=
  charsContain needle.data hay.data

/-- Python `s.startswith(p)`. -/
def strStarts (s p : String) : Bool :=
  p.data.isPrefixOf s.data

/-- Python `s.lower()` (ASCII). -/
def pyLower (s : String) : String := String.mk (s.data.map Char.toLower)

/-- Python `s.upper()` (ASCII). -/
def pyUpper (s : String) : String := String.mk (s.data.map Char.toUpper)

/-! ## MD5 (`hashlib.md5(...).hexdigest()`)

Used by `Cache._make_key` in `app/cache.py`. Full implementation of the
MD5 digest over byte lists, words as `Nat` with explicit `% 2^32`. -/

/-- MD5 per-round additive constants `⌊2³² · |sin(i+1)|⌋`. -/
def md5K : List Nat :=
  [3614090360, 3905402710, 606105819, 3250441966, 4118548399, 1200080426,
   2821735955, 4249261313, 1770035416, 2336552879, 4294925233, 2304563134,
   1804603682, 4254626195, 2792965006, 1236535329, 4129170786, 3225465664,
   643717713, 3921069994, 3593408605, 38016083, 3634488961, 3889429448,
   568446438, 3275163606, 4107603335, 1163531501, 2850285829, 4243563512,
   1735328473, 2368359562, 4294588738, 2272392833, 1839030562, 4259657740,
   2763975236, 1272893353, 4139469664, 3200236656, 681279174, 3936430074,
   3572445317, 76029189, 3654602809, 3873151461, 530742520, 3299628645,
   4096336452, 1126891415, 2878612391, 4237533241, 1700485571, 2399980690,
   4293915773, 2240044497, 1873313359, 4264355552, 2734768916, 1309151649,
   4149444226, 3174756917, 718787259, 3951481745]

/-- MD5 per-round left-rotation amounts. -/
def md5S : List Nat :=
  [7, 12, 17, 22, 7, 12, 17, 22, 7, 12, 17, 22, 7, 12, 17, 22,
   5, 9, 14, 20, 5, 9, 14, 20, 5, 9, 14, 20, 5, 9, 14, 20,
   4, 11, 16, 23, 4, 11, 16, 23, 4, 11, 16, 23, 4, 11, 16, 23,
   6, 10, 15, 21, 6, 10, 15, 21, 6, 10, 15, 21, 6, 10, 15, 21]

/-- List indexing with default 0. -/
def nth (l : List Nat) (i : Nat) : Nat := l.getD i 0

/-- 32-bit left rotation. -/
def rotl32 (x s : Nat) : Nat :=
  ((x <<< s) ||| (x >>> (32 - s))) % 4294967296

/-- 32-bit bitwise complement (for `x < 2³²`). -/
def not32 (x : Nat) : Nat := 4294967295 - x

/-- MD5 round mixing function, by round index. -/
def md5F (i b c d : Nat) : Nat :=
  if i < 16 then (b &&& c) ||| (not32 b &&& d)
  else if i < 32 then (d &&& b) ||| (not32 d &&& c)
  else if i < 48 then b ^^^ c ^^^ d
  else c ^^^ (b ||| not32 d)

/-- MD5 message-word schedule, by round index. -/
def md5G (i : Nat) : Nat :=
  if i < 16 then i
  else if i < 32 then (5 * i + 1) % 16
  else if i < 48 then (3 * i + 5) % 16
  else (7 * i) % 16

/-- Group bytes (little-endian) into 32-bit words. -/
def bytesToWords : List Nat → List Nat
  | b0 :: b1 :: b2 :: b3 :: rest =>
      (b0 + 256 * b1 + 65536 * b2 + 16777216 * b3) :: bytesToWords rest
  | _ => []

/-- One MD5 round on state `(a, b, c, d)`. -/
def md5step (M : List Nat) (st : Nat × Nat × Nat × Nat) (i : Nat) :
    Nat × Nat × Nat × Nat :=
  let (a, b, c, d) := st
  let f := (md5F i b c d + a + nth md5K i + nth M (md5G i)) % 4294967296
  (d, (b + rotl32 f (nth md5S i)) % 4294967296, b, c)

/-- Process one 512-bit block. -/
def md5block (st : Nat × Nat × Nat × Nat) (block : List Nat) :
    Nat × Nat × Nat × Nat :=
  let M := bytesToWords block
  let (a, b, c, d) := st
  let r := (List.range 64).foldl (md5step M) (a, b, c, d)
  ((a + r.1) % 4294967296, (b + r.2.1) % 4294967296,
   (c + r.2.2.1) % 4294967296, (d + r.2.2.2) % 4294967296)

/-- Process the padded message in 64-byte blocks; structural recursion on a
fuel argument (callers pass the exact block count, `length / 64`). -/
def md5blocksGo : Nat → (Nat × Nat × Nat × Nat) → List Nat →
    Nat × Nat × Nat × Nat
  | 0, st, _ => st
  | _ + 1, st, [] => st
  | fuel + 1, st, bytes =>
      md5blocksGo fuel (md5block st (bytes.take 64)) (bytes.drop 64)

/-- 64-bit little-endian byte encoding. -/
def le8 (n : Nat) : List Nat :=
  [n % 256, n / 256 % 256, n / 65536 % 256, n / 16777216 % 256,
   n / 4294967296 % 256, n / 1099511627776 % 256,
   n / 281474976710656 % 256, n / 72057594037927936 % 256]

/-- MD5 padding: `0x80`, zeros to 56 mod 64, then the bit length. -/
def md5pad (msg : List Nat) : List Nat :=
  let z := (119 - msg.length % 64) % 64
  msg ++ [128] ++ List.replicate z 0 ++ le8 ((8 * msg.length) % 18446744073709551616)

/-- Little-endian bytes of a 32-bit word. -/
def wordLeBytes (w : Nat) : List Nat :=
  [w % 256, w / 256 % 256, w / 65536 % 256, w / 16777216 % 256]

/-- Lowercase hex digit. -/
def hexDigit (n : Nat) : Char :=
  if n < 10 then Char.ofNat (48 + n) else Char.ofNat (87 + n)

/-- Two hex digits of a byte. -/
def byteHex (b : Nat) : List Char := [hexDigit (b / 16), hexDigit (b % 16)]

/-- `hashlib.md5(bytes).hexdigest()`. -/
def md5hexBytes (msg : List Nat) : String :=
  let padded := md5pad msg
  let r := md5blocksGo (padded.length / 64)
    (1732584193, 4023233417, 2562383102, 271733878) padded
  String.mk (((wordLeBytes r.1 ++ wordLeBytes r.2.1 ++ wordLeBytes r.2.2.1 ++
    wordLeBytes r.2.2.2).map byteHex).flatten)

/-- Bytes of a string (ASCII — every key this service builds is ASCII). -/
def strBytes (s : String) : List Nat := s.data.map Char.toNat

/-- `hashlib.md5(s.encode()).hexdigest()`. -/
def md5hex (s : String) : String := md5hexBytes (strBytes s)

/-! ## Cache (`app/cache.py`, in-memory fallback path)

`_memory_cache` is a dict from hashed key to cached value; here an
association list from key to the one value type this service caches
(a serialized vector response). The `ttl` argument is accepted and ignored,
as in the fallback path (`# no TTL support`). -/

/-- The vector read response (`FeatureVectorResponse` in `app/schemas.py`);
timestamps are modelled as `Nat` ticks. -/
structure VectorResponse where
  entityId : String
  featureValues : Rec
  featureVersionId : Nat
  computedAt : Nat
deriving DecidableEq, Repr

/-- The in-memory cache `_memory_cache`. -/
abbrev CacheState := List (String × VectorResponse)

/-- Generic first-match association lookup. -/
def mapGet {α : Type} (l : List (String × α)) (k : String) : Option α :=
  match l with
  | [] => Option.none
  | (k', v) :: rest => if k' = k then some v else mapGet rest k

/-- Python dict assignment `d[k] = v`: replace the existing binding or add. -/
def mapSet {α : Type} (l : List (String × α)) (k : String) (v : α) :
    List (String × α) :=
  match l with
  | [] => [(k, v)]
  | (k', v') :: rest =>
      if k' = k then (k, v) :: rest else (k', v') :: mapSet rest k v

/-- `Cache._make_key`: md5 of `"{prefix}:{':'.join(args)}"` (all key
arguments reach `_make_key` already stringified by the callers). -/
def makeKey (pre : String) (args : List String) : String :=
  md5hex (pre ++ ":" ++ String.intercalate ":" args)

/-- `Cache.get` (memory fallback). -/
def cacheGet (c : CacheState) (pre : String) (args : List String) :
    Option VectorResponse :=
  mapGet c (makeKey pre args)

/-- `Cache.set` (memory fallback; TTL ignored there). -/
def cacheSet (c : CacheState) (pre : String) (value : VectorResponse)
    (ttl : Nat) (args : List String) : CacheState :=
  mapSet c (makeKey pre args) value

/-- `Cache.clear_pattern` (memory fallback): drop every entry whose key has
the given pattern as a substring. -/
def clearPattern (c : CacheState) (pat : String) : CacheState :=
  c.filter (fun kv => !(strContains kv.1 pat))

/-! ## Database rows (`app/models.py`) and session state -/

/-- `RawTable` row: `schema_definition` is a nullable JSON dict of column
name to declared type. -/
structure RawTableRow where
  id : Nat
  name : String
  schemaDef : Option (List (String × String))
deriving DecidableEq, Repr

/-- `Feature` row. -/
structure FeatureRow where
  id : Nat
  name : String
  rawTableId : Nat
  computationLogic : String
  entityKey : String
deriving DecidableEq, Repr

/-- `FeatureVersion` row. -/
structure FeatureVersionRow where
  id : Nat
  featureId : Nat
  version : String
  status : String
  createdAt : Nat
deriving DecidableEq, Repr

/-- `FeatureVector` row. -/
structure FeatureVectorRow where
  featureVersionId : Nat
  entityId : String
  featureValues : Rec
  computedAt : Nat
deriving DecidableEq, Repr

/-- The database session state: the four tables, the autoincrement counter
for new version ids, and a logical clock supplying `created_at`/timestamps. -/
structure Db where
  rawTables : List RawTableRow
  features : List FeatureRow
  versions : List FeatureVersionRow
  vectors : List FeatureVectorRow
  nextVersionId : Nat
  clock : Nat
deriving DecidableEq, Repr

/-- `db.query(RawTable).filter(RawTable.id == i).first()`. -/
def findTable (db : Db) (i : Nat) : Option RawTableRow :=
  db.rawTables.find? (fun t => t.id == i)

/-- `db.query(Feature).filter(Feature.id == i).first()`. -/
def findFeature (db : Db) (i : Nat) : Option FeatureRow :=
  db.features.find? (fun f => f.id == i)

/-- `db.query(Feature).filter(Feature.name == n).first()`. -/
def findFeatureByName (db : Db) (n : String) : Option FeatureRow :=
  db.features.find? (fun f => f.name == n)

/-- `db.query(FeatureVersion).filter(FeatureVersion.id == i).first()`. -/
def findVersionById (db : Db) (i : Nat) : Option FeatureVersionRow :=
  db.versions.find? (fun v => v.id == i)

/-- `db.query(FeatureVersion).filter(feature_id == fid, version == lbl).first()`. -/
def findVersion (db : Db) (fid : Nat) (lbl : String) : Option FeatureVersionRow :=
  db.versions.find? (fun v => v.featureId == fid && v.version == lbl)

/-- `... .order_by(FeatureVersion.created_at.desc()).first()`: the version of
the feature with the greatest `created_at` (first stored row wins ties). -/
def latestVersion (db : Db) (fid : Nat) : Option FeatureVersionRow :=
  (db.versions.filter (fun v => v.featureId == fid)).foldl
    (fun acc v =>
      match acc with
      | Option.none => some v
      | some w => if v.createdAt > w.createdAt then some v else acc)
    Option.none

/-- `db.query(FeatureVector).filter(version == vid, entity_id == eid).first()`. -/
def findVec (l : List FeatureVectorRow) (vid : Nat) (eid : String) :
    Option FeatureVectorRow :=
  l.find? (fun w => w.featureVersionId == vid && w.entityId == eid)

/-! ## Consistency checker (`app/consistency.py`) -/

/-- Failure reasons of `validate_raw_table_schema` (the `error_msg` half of
its returned pair, structured). -/
inductive SchemaIssue : Type where
  | tableNotFound
  | noData
  | missingColumns (cols : List String)
  | typeMismatch (col expected actual : String)
deriving DecidableEq, Repr

/-- Trim surrounding whitespace from a character list. -/
def trimChars (l : List Char) : List Char :=
  ((l.dropWhile Char.isWhitespace).reverse.dropWhile Char.isWhitespace).reverse

/-- Drop one leading sign character. -/
def dropSign (l : List Char) : List Char :=
  match l with
  | c :: rest => if c = '+' || c = '-' then rest else l
  | [] => []

/-- Nonempty all-digit character list. -/
def digitsOnly (l : List Char) : Bool := !l.isEmpty && l.all Char.isDigit

/-- Does Python `int(s)` succeed? (sign + digits, surrounding whitespace;
digit-group underscores are not modelled). -/
def intLitOk (s : String) : Bool := digitsOnly (dropSign (trimChars s.data))

/-- Optional exponent suffix of a float literal. -/
def expPartOk (l : List Char) : Bool :=
  match l with
  | [] => true
  | 'e' :: r => digitsOnly (dropSign r)
  | 'E' :: r => digitsOnly (dropSign r)
  | _ => false

/-- Unsigned float-literal body: digits with optional point and exponent. -/
def mantExpOk (l : List Char) : Bool :=
  let ip := l.takeWhile Char.isDigit
  match l.dropWhile Char.isDigit with
  | '.' :: r2 =>
      (!ip.isEmpty || !(r2.takeWhile Char.isDigit).isEmpty) &&
        expPartOk (r2.dropWhile Char.isDigit)
  | r1 => !ip.isEmpty && expPartOk r1

/-- Does Python `float(s)` succeed? (`inf`/`nan` words and underscores are
not modelled). -/
def floatLitOk (s : String) : Bool := mantExpOk (dropSign (trimChars s.data))

/-- Does Python `int(value)` succeed? (`int` of any finite float truncates,
hence always succeeds in the rational float model). -/
def intCoercionOk : PyVal → Bool
  | .int _ => true
  | .bool _ => true
  | .float _ => true
  | .str s => intLitOk s
  | .none => false

/-- Does Python `float(value)` succeed? -/
def floatCoercionOk : PyVal → Bool
  | .int _ => true
  | .bool _ => true
  | .float _ => true
  | .str s => floatLitOk s
  | .none => false

/-- Python `type(value).__name__`. -/
def pyTypeName : PyVal → String
  | .int _ => "int"
  | .float _ => "float"
  | .str _ => "str"
  | .bool _ => "bool"
  | .none => "NoneType"

/-- The per-value type check of `validate_raw_table_schema`: a declared
`integer`/`float` passes on an `isinstance` hit or a successful coercion,
`string` requires an actual `str`, any other declared type is not checked. -/
def typeCheckVal (expected : String) (v : PyVal) : Bool :=
  if expected = "integer" then v.isInstInt || intCoercionOk v
  else if expected = "float" then v.isInstNum || floatCoercionOk v
  else if expected = "string" then v.isInstStr
  else true

/-- Inner loop of `validate_raw_table_schema`: first type failure of one
record against the schema (columns absent from the record or holding `None`
are skipped). -/
def checkRecord (schema : List (String × String)) (r : Rec) :
    Option SchemaIssue :=
  match schema with
  | [] => Option.none
  | (col, ty) :: rest =>
      match recGet r col with
      | some v =>
          if v ≠ PyVal.none ∧ typeCheckVal ty v = false then
            some (.typeMismatch col ty (pyTypeName v))
          else checkRecord rest r
      | Option.none => checkRecord rest r

/-- Outer loop: first type failure across the batch, in record order. -/
def checkRecords (schema : List (String × String)) : List Rec →
    Option SchemaIssue
  | [] => Option.none
  | r :: rest =>
      match checkRecord schema r with
      | some e => some e
      | Option.none => checkRecords schema rest

/-- `ConsistencyChecker.validate_raw_table_schema`: `none` means the pair
`(True, None)` was returned, `some e` the failing `(False, msg)`. -/
def validateRawTableSchema (db : Db) (tid : Nat) (data : List Rec) :
    Option SchemaIssue :=
  match findTable db tid with
  | Option.none => some .tableNotFound
  | some t =>
      match t.schemaDef with
      | Option.none => Option.none
      | some schema =>
          if schema.isEmpty then Option.none
          else if data.isEmpty then some .noData
          else
            let dataCols := (data.headD []).map (·.1)
            let missing := (schema.map (·.1)).filter
              (fun c => !(dataCols.contains c))
            if !missing.isEmpty then some (.missingColumns missing)
            else checkRecords schema data

/-- Failure reasons of `validate_feature_computation`. -/
inductive CompIssue : Type where
  | featureNotFound
  | tableNotFound
  | entityKeyNotInSchema (k : String)
  | unsafeComputation (kw : String)
deriving DecidableEq, Repr

/-- The fixed deny-list of `validate_feature_computation`. -/
def dangerousKeywords : List String :=
  ["drop", "delete", "truncate", "alter", "create", "insert", "update"]

/-- The occurrence test the validator applies to the lowercased logic text:
the keyword surrounded by spaces, or the text starting with the keyword. -/
def kwTriggers (computation kw : String) : Bool :=
  strContains computation (" " ++ kw ++ " ") || strStarts computation kw

/-- `ConsistencyChecker.validate_feature_computation`. -/
def validateFeatureComputation (db : Db) (fid : Nat) : Option CompIssue :=
  match findFeature db fid with
  | Option.none => some .featureNotFound
  | some f =>
      match findTable db f.rawTableId with
      | Option.none => some .tableNotFound
      | some t =>
          let keyMissing : Bool :=
            match t.schemaDef with
            | some s => !s.isEmpty && !((s.map (·.1)).contains f.entityKey)
            | Option.none => false
          if keyMissing then
            some (.entityKeyNotInSchema f.entityKey)
          else
            match dangerousKeywords.find?
                (fun kw => kwTriggers (pyLower f.computationLogic) kw) with
            | some kw => some (.unsafeComputation kw)
            | Option.none => Option.none

/-- Failure reasons of `check_feature_version_consistency`. -/
inductive ConsIssue : Type where
  | versionNotFound
  | featureNotFound
  | inconsistentStructure
deriving DecidableEq, Repr

/-- Equality of key lists as sets (Python `set(a) != set(b)` negated). -/
def keySetEq (a b : List String) : Bool :=
  a.all (fun k => b.contains k) && b.all (fun k => a.contains k)

/-- `ConsistencyChecker.check_feature_version_consistency`: sample up to 10
vectors of the version and compare every key set with the first one. -/
def checkFeatureVersionConsistency (db : Db) (vid : Nat) : Option ConsIssue :=
  match findVersionById db vid with
  | Option.none => some .versionNotFound
  | some ver =>
      match findFeature db ver.featureId with
      | Option.none => some .featureNotFound
      | some _ =>
          match (db.vectors.filter (fun w => w.featureVersionId == vid)).take 10 with
          | [] => Option.none
          | v0 :: rest =>
              if rest.all (fun w =>
                  keySetEq (w.featureValues.map (·.1)) (v0.featureValues.map (·.1))) then
                Option.none
              else some .inconsistentStructure

/-! ## pandas aggregation model (`app/feature_computer.py` helpers)

`pd.DataFrame(raw_data)` from a list of dicts: columns are the union of the
record key sets; a key absent from a record is a missing (NaN) cell. See the
file header for the `groupby` conventions. -/

/-- DataFrame columns: union of record keys in first-appearance order. -/
def dfColumns (df : List Rec) : List String :=
  df.foldl (fun acc r =>
    r.foldl (fun acc2 kv => if acc2.contains kv.1 then acc2 else acc2 ++ [kv.1]) acc) []

/-- The present, non-null cells of one column. -/
def colCells (df : List Rec) (c : String) : List PyVal :=
  (df.filterMap (fun r => recGet r c)).filter (fun v => v != PyVal.none)

/-- `int64`/`float64` dtype test: every present non-null cell of the column
is an int or a float (missing/null cells become NaN, keeping the column
numeric). This is the test of `_execute_sql_query`'s
`df[col].dtype in ['int64', 'float64']`. -/
def isNumericCol (df : List Rec) (c : String) : Bool :=
  (colCells df c).all PyVal.isNum

/-- `bool` dtype test: every record holds a bool in the column. A missing
or null cell, or any non-bool value, makes the column object dtype
instead. -/
def isBoolCol (df : List Rec) (c : String) : Bool :=
  df.all (fun r =>
    match recGet r c with
    | some (PyVal.bool _) => true
    | _ => false)

/-- A column kept by `numeric_only` aggregation (`mean()`/`sum()`):
float, int or boolean dtype. -/
def isNumOnlyCol (df : List Rec) (c : String) : Bool :=
  isNumericCol df c || isBoolCol df c

/-- First-occurrence deduplication (worker with a `seen` accumulator). -/
def dedupFirstGo (seen : List PyVal) : List PyVal → List PyVal
  | [] => []
  | v :: rest =>
      if seen.contains v then dedupFirstGo seen rest
      else v :: dedupFirstGo (seen ++ [v]) rest

/-- First-occurrence deduplication. -/
def dedupFirst (l : List PyVal) : List PyVal := dedupFirstGo [] l

/-- `groupby` group keys: the distinct present non-null values of the key
column (rows with a missing/null key are dropped by pandas). -/
def groupKeys (df : List Rec) (key : String) : List PyVal :=
  dedupFirst ((df.filterMap (fun r => recGet r key)).filter (fun v => v != PyVal.none))

/-- The rows of one group. -/
def groupRows (df : List Rec) (key : String) (v : PyVal) : List Rec :=
  df.filter (fun r => recGet r key == some v)

/-- Group mean of a `numeric_only` column (NaN cells skipped; all-missing →
NaN; boolean cells average as 0/1). -/
def groupMean (df : List Rec) (key : String) (v : PyVal) (c : String) : PyVal :=
  match colCells (groupRows df key v) c with
  | [] => PyVal.none
  | cells => PyVal.float ((cells.map PyVal.toRat).sum / (cells.length : ℚ))

/-- Group sum of a numeric column (NaN cells skipped; empty sum is 0).
pandas keeps `int64` sums integer-typed; the value is uniformly wrapped as
a float here — a rendering-level idealization (the numeric value agrees). -/
def groupSum (df : List Rec) (key : String) (v : PyVal) (c : String) : PyVal :=
  PyVal.float (((colCells (groupRows df key v) c).map PyVal.toRat).sum)

/-- Group `first`: first present non-null cell of the column in the group. -/
def groupFirstVal (df : List Rec) (key : String) (v : PyVal) (c : String) : PyVal :=
  match colCells (groupRows df key v) c with
  | [] => PyVal.none
  | w :: _ => w

/-- The non-key columns of float, int or boolean dtype — the ones
`numeric_only` `mean()`/`sum()` keep. -/
def aggCols (df : List Rec) (key : String) : List String :=
  (dfColumns df).filter (fun c => c != key && isNumOnlyCol df c)

/-- All non-key columns (the ones `first()` and the SQL-branch agg keep). -/
def otherCols (df : List Rec) (key : String) : List String :=
  (dfColumns df).filter (fun c => c != key)

/-- `df.groupby(key).mean().reset_index()`. -/
def groupbyMeanReset (df : List Rec) (key : String) : List Rec :=
  (groupKeys df key).map (fun v =>
    (key, v) :: (aggCols df key).map (fun c => (c, groupMean df key v c)))

/-- `df.groupby(key).sum().reset_index()`. -/
def groupbySumReset (df : List Rec) (key : String) : List Rec :=
  (groupKeys df key).map (fun v =>
    (key, v) :: (aggCols df key).map (fun c => (c, groupSum df key v c)))

/-- `df.groupby(key).size().reset_index(name='count')`. -/
def groupbySizeReset (df : List Rec) (key : String) : List Rec :=
  (groupKeys df key).map (fun v =>
    [(key, v), ("count", PyVal.int ((groupRows df key v).length : Int))])

/-- `df.groupby(key).first().reset_index()`. -/
def groupbyFirstReset (df : List Rec) (key : String) : List Rec :=
  (groupKeys df key).map (fun v =>
    (key, v) :: (otherCols df key).map (fun c => (c, groupFirstVal df key v c)))

/-- `df.groupby(key).agg({col: 'mean' if numeric dtype else 'first'})
.reset_index()` — the `GROUP BY` branch of `_execute_sql_query`. -/
def groupbyMeanFirstReset (df : List Rec) (key : String) : List Rec :=
  (groupKeys df key).map (fun v =>
    (key, v) :: (otherCols df key).map (fun c =>
      (c, if isNumericCol df c then groupMean df key v c else groupFirstVal df key v c)))

/-- Trim surrounding whitespace (`str.strip`). -/
def pyStrip (s : String) : String := String.mk (trimChars s.data)

/-- `FeatureComputer._execute_sql_query`. -/
def executeSqlQuery (df : List Rec) (query : String) (key : String) : List Rec :=
  let qU := pyStrip (pyUpper query)
  if strStarts qU "SELECT" then
    if strContains qU "GROUP BY" then groupbyMeanFirstReset df key else df
  else df

/-- `FeatureComputer._execute_python_logic`. -/
def executePythonLogic (df : List Rec) (logic : String) (key : String) : List Rec :=
  let l := pyLower logic
  if strContains l "mean" || strContains l "avg" then groupbyMeanReset df key
  else if strContains l "sum" then groupbySumReset df key
  else if strContains l "count" then groupbySizeReset df key
  else groupbyFirstReset df key

/-- The result DataFrame of one compute run (the logic dispatch of
`compute_feature`: a logic text containing `SELECT` goes to the SQL branch,
anything else to the Python branch). -/
def computeResultDf (rawData : List Rec) (logic : String) (key : String) : List Rec :=
  if strContains (pyUpper logic) "SELECT" then executeSqlQuery rawData logic key
  else executePythonLogic rawData logic key

/-- The entity ids (`str(row[entity_key])`) of one compute run's result. -/
def computedEntityIds (rawData : List Rec) (logic : String) (key : String) :
    List String :=
  (computeResultDf rawData logic key).map
    (fun row => PyVal.pyStr ((recGet row key).getD PyVal.none))

/-! ## Feature computation (`app/feature_computer.py`) -/

/-- Failures (`ValueError`s) raised by `FeatureComputer.compute_feature`. -/
inductive ComputeErr : Type where
  | featureNotFound (fid : Nat)
  | rawTableNotFound (tid : Nat)
  | entityKeyAbsent (k : String)
deriving DecidableEq, Repr

/-- The success payload of `compute_feature`. -/
structure ComputeResult where
  featureVersionId : Nat
  vectorsCreated : Nat
  entitiesProcessed : Nat
deriving DecidableEq, Repr

/-- The get-or-create step of `compute_feature` (spec: `resolveOrCreate`):
return the existing `(feature, version-label)` row, or insert a fresh one
with status `active` and commit. -/
def resolveOrCreateVersion (db : Db) (fid : Nat) (lbl : String) :
    FeatureVersionRow × Db :=
  match findVersion db fid lbl with
  | some v => (v, db)
  | Option.none =>
      let v : FeatureVersionRow := ⟨db.nextVersionId, fid, lbl, "active", db.clock⟩
      (v, { db with
              versions := db.versions ++ [v],
              nextVersionId := db.nextVersionId + 1,
              clock := db.clock + 1 })

/-- Overwrite `feature_values` of the first vector matching the composite
key (the `existing.feature_values = feature_values` branch). -/
def setVecVals : List FeatureVectorRow → Nat → String → Rec →
    List FeatureVectorRow
  | [], _, _, _ => []
  | w :: ws, vid, eid, vals =>
      if w.featureVersionId = vid ∧ w.entityId = eid then
        { w with featureValues := vals } :: ws
      else w :: setVecVals ws vid eid vals

/-- One iteration of the vector upsert loop; the `Nat` is 1 when a new
vector row was created, 0 on an update. -/
def upsertVec (l : List FeatureVectorRow) (vid : Nat) (eid : String)
    (vals : Rec) (now : Nat) : List FeatureVectorRow × Nat :=
  match findVec l vid eid with
  | some _ => (setVecVals l vid eid vals, 0)
  | Option.none => (l ++ [⟨vid, eid, vals, now⟩], 1)

/-- The vector upsert loop over the result rows; returns the new vector
table and `vectors_created`. -/
def applyRows (vid : Nat) (key : String) (now : Nat) :
    List Rec → List FeatureVectorRow → List FeatureVectorRow × Nat
  | [], l => (l, 0)
  | row :: rest, l =>
      let eid := PyVal.pyStr ((recGet row key).getD PyVal.none)
      let vals := row.filter (fun kv => kv.1 != key)
      let p := upsertVec l vid eid vals now
      let q := applyRows vid key now rest p.1
      (q.1, p.2 + q.2)

/-- `FeatureComputer.compute_feature`. The version get-or-create commits
before the entity-key check, so a failure there keeps the new version row
but writes no vectors (`raw_data` is always supplied by the caller, so the
`raw_data is None` branch is unreachable here). -/
def computeFeature (db : Db) (fid : Nat) (version : String)
    (rawData : List Rec) : Except ComputeErr ComputeResult × Db :=
  match findFeature db fid with
  | Option.none => (.error (.featureNotFound fid), db)
  | some f =>
      match findTable db f.rawTableId with
      | Option.none => (.error (.rawTableNotFound f.rawTableId), db)
      | some _ =>
          let p := resolveOrCreateVersion db fid version
          let fv := p.1
          let db1 := p.2
          if !((dfColumns rawData).contains f.entityKey) then
            (.error (.entityKeyAbsent f.entityKey), db1)
          else
            let resultDf := computeResultDf rawData f.computationLogic f.entityKey
            let q := applyRows fv.id f.entityKey db1.clock resultDf db1.vectors
            (.ok ⟨fv.id, q.2, resultDf.length⟩,
             { db1 with vectors := q.1, clock := db1.clock + 1 })

/-! ## HTTP endpoints (`app/main.py`) -/

/-- The `HTTPException` payloads raised by the two endpoints under study. -/
inductive ApiErr : Type where
  | featureNotFound
  | invalidRawData (e : SchemaIssue)
  | computeFailed (e : ComputeErr)
  | versionNotFound
  | featureNameNotFound
  | noVersions
  | vectorNotFound
  | missingVersionOrName
deriving DecidableEq, Repr

deriving instance DecidableEq for Except

/-- Python truthiness of `Optional[int]` (`None` and `0` are falsy). -/
def truthyInt : Option Int → Bool
  | some n => n != 0
  | Option.none => false

/-- Python truthiness of `Optional[str]` (`None` and `""` are falsy). -/
def truthyStr : Option String → Bool
  | some s => s != ""
  | Option.none => false

/-- `str(feature_version_id or "")` — the version-id cache-key argument. -/
def argOfInt : Option Int → String
  | some n => if n != 0 then toString n else ""
  | Option.none => ""

/-- `feature_name or ""` — the feature-name cache-key argument. -/
def argOfStr : Option String → String
  | some s => s
  | Option.none => ""

/-- The `POST /features/{id}/compute` handler: feature lookup, raw-data
schema validation, computation, then (only on success)
`cache.clear_pattern(f"feature_vector:{feature_id}")` before returning. -/
def computeEndpoint (db : Db) (cache : CacheState) (fid : Nat)
    (version : String) (rawData : List Rec) :
    Except ApiErr ComputeResult × Db × CacheState :=
  match findFeature db fid with
  | Option.none => (.error .featureNotFound, db, cache)
  | some f =>
      match validateRawTableSchema db f.rawTableId rawData with
      | some e => (.error (.invalidRawData e), db, cache)
      | Option.none =>
          match computeFeature db fid version rawData with
          | (.ok result, db2) =>
              (.ok result, db2,
               clearPattern cache ("feature_vector:" ++ toString fid))
          | (.error e, db2) => (.error (.computeFailed e), db2, cache)

/-- The `GET /feature-vectors` handler. Returns the response (or error), the
cache after the call, and the consistency warnings that were logged (the
`print` on a failed read-time consistency check). The final `cache.set`
line of the source (main.py line 291) passes its arguments positionally
after the `ttl=3600` keyword — a slip as written; it is modelled as the
evident intent `cache.set("feature_vector", response, 3600, entity_id,
feature_version_id or "", feature_name or "")`. -/
def getFeatureVector (db : Db) (cache : CacheState) (eid : String)
    (fvid : Option Int) (fname : Option String) :
    Except ApiErr VectorResponse × CacheState × List ConsIssue :=
  let args := [eid, argOfInt fvid, argOfStr fname]
  match cacheGet cache "feature_vector" args with
  | some r => (.ok r, cache, [])
  | Option.none =>
      let resolved : Except ApiErr FeatureVersionRow :=
        if truthyInt fvid then
          match db.versions.find? (fun v => (v.id : Int) == fvid.getD 0) with
          | some ver => .ok ver
          | Option.none => .error .versionNotFound
        else if truthyStr fname then
          match findFeatureByName db (fname.getD "") with
          | Option.none => .error .featureNameNotFound
          | some f =>
              match latestVersion db f.id with
              | some ver => .ok ver
              | Option.none => .error .noVersions
        else .error .missingVersionOrName
      match resolved with
      | .error e => (.error e, cache, [])
      | .ok ver =>
          match findVec db.vectors ver.id eid with
          | Option.none => (.error .vectorNotFound, cache, [])
          | some w =>
              let warns :=
                match checkFeatureVersionConsistency db ver.id with
                | some e => [e]
                | Option.none => []
              let resp : VectorResponse :=
                ⟨w.entityId, w.featureValues, w.featureVersionId, w.computedAt⟩
              (.ok resp, cacheSet cache "feature_vector" resp 3600 args, warns)

/-! ## Concrete fixtures

Small states and batches used to exercise the claims at concrete inputs. -/

/-- A feature with `avg` aggregation logic and entity key `uid`. -/
def featAvg : FeatureRow := ⟨1, "f1", 1, "avg", "uid"⟩

/-- A database with one schema-less table and `featAvg`, no versions yet. -/
def dbAvg : Db :=
  { rawTables := [⟨1, "t", Option.none⟩],
    features := [featAvg],
    versions := [], vectors := [], nextVersionId := 1, clock := 0 }

/-- The spec scenario batch: two records for `a`, one for `b`. -/
def batchAB : List Rec :=
  [[("uid", .str "a"), ("amt", .int 10)],
   [("uid", .str "a"), ("amt", .int 20)],
   [("uid", .str "b"), ("amt", .int 5)]]

/-- The scenario batch extended with a non-numeric `tag` column. -/
def batchABTag : List Rec :=
  [[("uid", .str "a"), ("amt", .int 10), ("tag", .str "x")],
   [("uid", .str "a"), ("amt", .int 20), ("tag", .str "y")],
   [("uid", .str "b"), ("amt", .int 5), ("tag", .str "z")]]

/-- The scenario batch with a boolean `flag` column instead of `amt`
(present in every record, so the column has bool dtype). -/
def batchABFlag : List Rec :=
  [[("uid", .str "a"), ("flag", .bool true)],
   [("uid", .str "a"), ("flag", .bool false)],
   [("uid", .str "b"), ("flag", .bool true)]]

/-- A batch without the `uid` column. -/
def batchNoUid : List Rec := [[("amt", .int 1)]]

/-- A batch containing only entity `a`. -/
def batchOnlyA : List Rec := [[("uid", .str "a"), ("amt", .int 7)]]

/-- `dbAvg` after one compute run: version 1 exists and entity `e1` has a
stored vector under it. -/
def dbVec : Db :=
  { rawTables := [⟨1, "t", Option.none⟩],
    features := [featAvg],
    versions := [⟨1, 1, "v1", "active", 0⟩],
    vectors := [⟨1, "e1", [("amt", .float 15)], 5⟩],
    nextVersionId := 2, clock := 6 }

/-- The vector response a read of `e1` under version 1 serves and caches. -/
def respCached : VectorResponse := ⟨"e1", [("amt", .float 15)], 1, 5⟩

/-- A cache holding the entry a previous
`GET /feature-vectors?entity_id=e1&feature_version_id=1` stored. -/
def cacheOne : CacheState :=
  cacheSet [] "feature_vector" respCached 3600 ["e1", "1", ""]

/-- A database with two features whose logic texts probe the deny-list:
`"updates the mean"` (no deny-listed standalone token) and
`"compute drop"` (deny-listed `drop` as final standalone token). -/
def dbKw : Db :=
  { rawTables := [⟨1, "t", some [("uid", "string")]⟩],
    features := [⟨1, "f1", 1, "updates the mean", "uid"⟩,
                 ⟨2, "f2", 1, "compute drop", "uid"⟩],
    versions := [], vectors := [], nextVersionId := 1, clock := 0 }

/-- A database whose version 1 holds two vectors with different value-map
key sets (structurally inconsistent). -/
def dbInc : Db :=
  { rawTables := [⟨1, "t", Option.none⟩],
    features := [featAvg],
    versions := [⟨1, 1, "v1", "active", 0⟩],
    vectors := [⟨1, "e1", [("x", .int 1)], 0⟩, ⟨1, "e2", [("y", .int 2)], 0⟩],
    nextVersionId := 2, clock := 1 }

/-- A database with four tables: no schema, an `integer` column schema, an
empty schema, and a `string` column schema. -/
def dbSchemas : Db :=
  { rawTables := [⟨1, "t1", Option.none⟩,
                  ⟨2, "t2", some [("c", "integer")]⟩,
                  ⟨3, "t3", some []⟩,
                  ⟨4, "t4", some [("c", "string")]⟩],
    features := [], versions := [], vectors := [], nextVersionId := 1, clock := 0 }

/-- `dbAvg` after a first compute of version `v1` on `batchAB` (vectors for
entities `a` and `b` exist). -/
def dbAfterAB : Db := (computeFeature dbAvg 1 "v1" batchAB).2

/-! ## Helper lemmas -/

/-- The get-or-create step never touches the vector table. -/
theorem roc_vectors (db : Db) (fid : Nat) (lbl : String) :
    (resolveOrCreateVersion db fid lbl).2.vectors = db.vectors := by
  unfold resolveOrCreateVersion
  split <;> rfl

/-- C6: `resolveOrCreate` is idempotent: a second get-or-create with the
same `(featureId, versionLabel)` returns the same version and leaves the
state unchanged; the lookup afterwards resolves to exactly the returned
version; a version created because none existed has status `active`. -/
theorem resolveOrCreate_idempotent (db : Db) (fid : Nat) (lbl : String) :
    resolveOrCreateVersion (resolveOrCreateVersion db fid lbl).2 fid lbl
      = resolveOrCreateVersion db fid lbl
    ∧ findVersion (resolveOrCreateVersion db fid lbl).2 fid lbl
      = some (resolveOrCreateVersion db fid lbl).1
    ∧ (findVersion db fid lbl = Option.none →
        (resolveOrCreateVersion db fid lbl).1.status = "active") := by
  have h2 : findVersion (resolveOrCreateVersion db fid lbl).2 fid lbl
      = some (resolveOrCreateVersion db fid lbl).1 := by
    unfold resolveOrCreateVersion
    cases h : findVersion db fid lbl with
    | some v => simpa using h
    | none =>
      simp only []
      unfold findVersion at h ⊢
      simp [List.find?_append, h, List.find?]
  refine ⟨?_, h2, ?_⟩
  · conv_lhs => rw [resolveOrCreateVersion]
    simp [h2]
  · intro h
    simp [resolveOrCreateVersion, h]

/-- Witness for `resolveOrCreate_idempotent` at a concrete state with no
existing version. -/
theorem resolveOrCreate_idempotent_w :
    resolveOrCreateVersion (resolveOrCreateVersion dbAvg 1 "v1").2 1 "v1"
      = resolveOrCreateVersion dbAvg 1 "v1"
    ∧ (resolveOrCreateVersion dbAvg 1 "v1").1.status = "active" := by
  have h := resolveOrCreate_idempotent dbAvg 1 "v1"
  exact ⟨h.1, h.2.2 (by decide)⟩

/-- C5: if the entity key is not a column of the batch, compute fails with
the entity-key error and the vector store is untouched. -/
theorem computeFeature_entityKeyAbsent (db : Db) (fid : Nat) (f : FeatureRow)
    (t : RawTableRow) (version : String) (raw : List Rec)
    (hf : findFeature db fid = some f)
    (ht : findTable db f.rawTableId = some t)
    (hk : (dfColumns raw).contains f.entityKey = false) :
    (computeFeature db fid version raw).1
      = .error (.entityKeyAbsent f.entityKey)
    ∧ (computeFeature db fid version raw).2.vectors = db.vectors := by
  unfold computeFeature
  simp only [hf, ht]
  have hk2 : f.entityKey ∉ dfColumns raw := by simpa using hk
  simp [hk2, roc_vectors]

/-- Witness for `computeFeature_entityKeyAbsent`: a batch without `uid`. -/
theorem computeFeature_entityKeyAbsent_w :
    (computeFeature dbAvg 1 "v1" batchNoUid).1
      = .error (.entityKeyAbsent "uid")
    ∧ (computeFeature dbAvg 1 "v1" batchNoUid).2.vectors = dbAvg.vectors := by
  exact computeFeature_entityKeyAbsent dbAvg 1 featAvg ⟨1, "t", Option.none⟩
    "v1" batchNoUid (by decide) (by decide) (by decide)

/-- C9: schema validation accepts every batch (including an empty one) when
the table's schema is absent or empty, and fails with the no-data error
when a schema is declared and the batch is empty. -/
theorem validateSchema_emptyCases (db : Db) (tid : Nat) (t : RawTableRow)
    (ht : findTable db tid = some t) :
    ((t.schemaDef = Option.none ∨ t.schemaDef = some ([] : List (String × String))) →
      ∀ data, validateRawTableSchema db tid data = Option.none)
    ∧ (∀ s, t.schemaDef = some s → s ≠ [] →
        validateRawTableSchema db tid [] = some SchemaIssue.noData) := by
  unfold validateRawTableSchema
  simp only [ht]
  constructor
  · rintro (h | h) data <;> simp [h]
  · intro s hs hne
    simp [hs, hne]

/-- Witness for `validateSchema_emptyCases` on the three schema shapes of
`dbSchemas`. -/
theorem validateSchema_emptyCases_w :
    validateRawTableSchema dbSchemas 1 [] = Option.none
    ∧ validateRawTableSchema dbSchemas 3 [] = Option.none
    ∧ validateRawTableSchema dbSchemas 2 [] = some SchemaIssue.noData := by
  refine ⟨(validateSchema_emptyCases dbSchemas 1 ⟨1, "t1", Option.none⟩
      (by decide)).1 (Or.inl rfl) [],
    (validateSchema_emptyCases dbSchemas 3 ⟨3, "t3", some []⟩
      (by decide)).1 (Or.inr rfl) [],
    (validateSchema_emptyCases dbSchemas 2 ⟨2, "t2", some [("c", "integer")]⟩
      (by decide)).2 [("c", "integer")] rfl (by decide)⟩

/-- C10: under a declared `integer` column, any float (also non-integral)
and any boolean pass validation (the `int()` coercion or the `isinstance`
check succeeds); under a declared `string` column every non-string,
non-null value fails outright. -/
theorem validateSchema_intCoercion (db : Db) (t1 t2 : Nat)
    (tb1 tb2 : RawTableRow)
    (h1 : findTable db t1 = some tb1)
    (h1s : tb1.schemaDef = some [("c", "integer")])
    (h2 : findTable db t2 = some tb2)
    (h2s : tb2.schemaDef = some [("c", "string")]) :
    (∀ q : ℚ, validateRawTableSchema db t1 [[("c", PyVal.float q)]] = Option.none)
    ∧ (∀ b : Bool, validateRawTableSchema db t1 [[("c", PyVal.bool b)]] = Option.none)
    ∧ (∀ v : PyVal, v.isInstStr = false → v ≠ PyVal.none →
        validateRawTableSchema db t2 [[("c", v)]]
          = some (.typeMismatch "c" "string" (pyTypeName v))) := by
  unfold validateRawTableSchema
  simp only [h1, h2, h1s, h2s]
  refine ⟨?_, ?_, ?_⟩
  · intro q
    simp [checkRecords, checkRecord, recGet, typeCheckVal, intCoercionOk,
      PyVal.isInstInt]
  · intro b
    simp [checkRecords, checkRecord, recGet, typeCheckVal, intCoercionOk,
      PyVal.isInstInt]
  · intro v hstr hnone
    simp [checkRecords, checkRecord, recGet, typeCheckVal, hstr, hnone]

/-- Witness for `validateSchema_intCoercion`: the non-integral float `7/2`,
the boolean `true`, and the non-string `int 5`. -/
theorem validateSchema_intCoercion_w :
    validateRawTableSchema dbSchemas 2 [[("c", PyVal.float (7/2))]] = Option.none
    ∧ validateRawTableSchema dbSchemas 2 [[("c", PyVal.bool true)]] = Option.none
    ∧ validateRawTableSchema dbSchemas 4 [[("c", PyVal.int 5)]]
        = some (.typeMismatch "c" "string" "int") := by
  have h := validateSchema_intCoercion dbSchemas 2 4
    ⟨2, "t2", some [("c", "integer")]⟩ ⟨4, "t4", some [("c", "string")]⟩
    (by decide) rfl (by decide) rfl
  exact ⟨h.1 (7/2), h.2.1 true, h.2.2 (PyVal.int 5) rfl (by decide)⟩

/-- C3 (amended): with the referenced feature and table present and the
entity key in the owner schema, the computation-logic validator passes
exactly when no deny-listed keyword occurs space-surrounded in the
lowercased logic text or as a leading prefix of it (`kwTriggers`). -/
theorem validateComputation_kwCondition (db : Db) (fid : Nat)
    (f : FeatureRow) (t : RawTableRow)
    (hf : findFeature db fid = some f)
    (ht : findTable db f.rawTableId = some t)
    (hkey : ∀ s, t.schemaDef = some s → s ≠ [] →
      f.entityKey ∈ s.map Prod.fst) :
    validateFeatureComputation db fid = Option.none
      ↔ ∀ kw ∈ dangerousKeywords,
          kwTriggers (pyLower f.computationLogic) kw = false := by
  unfold validateFeatureComputation
  simp only [hf, ht]
  have hkm : (match t.schemaDef with
      | some s => !s.isEmpty && !((s.map Prod.fst).contains f.entityKey)
      | Option.none => false) = false := by
    cases hs : t.schemaDef with
    | none => rfl
    | some s =>
      cases s with
      | nil => rfl
      | cons a l =>
        have hm := hkey _ hs (by simp)
        have hc : (((a :: l).map Prod.fst).contains f.entityKey) = true := by
          simpa using hm
        simp only [hc, Bool.not_true, Bool.and_false]
  rw [hkm]
  simp only [Bool.false_eq_true, if_false]
  cases hfind : dangerousKeywords.find?
      (fun kw => kwTriggers (pyLower f.computationLogic) kw) with
  | none =>
    constructor
    · intro _ kw hkw
      have := List.find?_eq_none.mp hfind kw hkw
      simpa using this
    · intro _
      simp [hfind]
  | some kw =>
    constructor
    · intro h
      simp [hfind] at h
    · intro hall
      have h1 := List.find?_some hfind
      rw [hall kw (List.mem_of_find?_eq_some hfind)] at h1
      simp at h1

/-- Counterexample for C3 as stated: `"updates the mean"` has no
deny-listed standalone token yet is rejected (leading-prefix match on
`update`), while `"compute drop"` has `drop` as a standalone final token
yet passes (no trailing space, not leading). -/
theorem validateComputation_kw_cx :
    validateFeatureComputation dbKw 1 = some (.unsafeComputation "update")
    ∧ validateFeatureComputation dbKw 2 = Option.none := by decide

/-- Witness for `validateComputation_kwCondition` at feature 2 of `dbKw`. -/
theorem validateComputation_kwCondition_w :
    validateFeatureComputation dbKw 2 = Option.none := by
  have h := validateComputation_kwCondition dbKw 2
    ⟨2, "f2", 1, "compute drop", "uid"⟩ ⟨1, "t", some [("uid", "string")]⟩
    (by decide) (by decide)
    (fun s hs _ => by
      injection hs with hs2
      subst hs2
      decide)
  exact h.mpr (by decide)

/-- C4 (amended): on a cache miss, a read supplying neither field is
rejected; a read with a truthy `feature_version_id` resolves through it and
ignores `feature_name` entirely (both-supplied is not rejected); a read
with only a truthy `feature_name` resolves the latest version of that
feature. In the latter two cases, when the vector exists the response is
built from its entity id, value map, version id and timestamp. -/
theorem getFeatureVector_resolution (db : Db) (cache : CacheState)
    (eid : String) (fvid : Option Int) (fname : Option String)
    (hc : cacheGet cache "feature_vector" [eid, argOfInt fvid, argOfStr fname]
      = Option.none) :
    (truthyInt fvid = false → truthyStr fname = false →
      (getFeatureVector db cache eid fvid fname).1
        = .error .missingVersionOrName)
    ∧ (∀ ver w, truthyInt fvid = true →
        db.versions.find? (fun v => (v.id : Int) == fvid.getD 0) = some ver →
        findVec db.vectors ver.id eid = some w →
        (getFeatureVector db cache eid fvid fname).1
          = .ok ⟨w.entityId, w.featureValues, w.featureVersionId, w.computedAt⟩)
    ∧ (∀ f ver w, truthyInt fvid = false → truthyStr fname = true →
        findFeatureByName db (fname.getD "") = some f →
        latestVersion db f.id = some ver →
        findVec db.vectors ver.id eid = some w →
        (getFeatureVector db cache eid fvid fname).1
          = .ok ⟨w.entityId, w.featureValues, w.featureVersionId, w.computedAt⟩) := by
  unfold getFeatureVector
  simp only [hc]
  refine ⟨?_, ?_, ?_⟩
  · intro h1 h2
    simp [h1, h2]
  · intro ver w h1 hver hw
    simp [h1, hver, hw]
  · intro f ver w h1 h2 hf hver hw
    simp [h1, h2, hf, hver, hw]

/-- Counterexample for C4 as stated: supplying both `feature_version_id`
and `feature_name` is not rejected — the read succeeds via the version id. -/
theorem getFeatureVector_both_cx :
    (getFeatureVector dbVec [] "e1" (some 1) (some "f1")).1
      = .ok ⟨"e1", [("amt", PyVal.float 15)], 1, 5⟩ := by decide

/-- Witness for `getFeatureVector_resolution`: neither field, version-id
only, and feature-name only, against `dbVec`. -/
theorem getFeatureVector_resolution_w :
    (getFeatureVector dbVec [] "e1" Option.none Option.none).1
      = .error .missingVersionOrName
    ∧ (getFeatureVector dbVec [] "e1" (some 1) Option.none).1
      = .ok ⟨"e1", [("amt", PyVal.float 15)], 1, 5⟩
    ∧ (getFeatureVector dbVec [] "e1" Option.none (some "f1")).1
      = .ok ⟨"e1", [("amt", PyVal.float 15)], 1, 5⟩ := by
  refine ⟨(getFeatureVector_resolution dbVec [] "e1" Option.none Option.none
      (by decide)).1 rfl rfl,
    (getFeatureVector_resolution dbVec [] "e1" (some 1) Option.none
      (by decide)).2.1 ⟨1, 1, "v1", "active", 0⟩
      ⟨1, "e1", [("amt", PyVal.float 15)], 5⟩ rfl (by decide) (by decide),
    (getFeatureVector_resolution dbVec [] "e1" Option.none (some "f1")
      (by decide)).2.2 featAvg ⟨1, 1, "v1", "active", 0⟩
      ⟨1, "e1", [("amt", PyVal.float 15)], 5⟩ rfl rfl (by decide) (by decide)
      (by decide)⟩

/-- C8: a read that finds its stored vector returns the response built from
it no matter what the structural-consistency check of the version says (the
check's failure is only surfaced in the logged warnings). -/
theorem getFeatureVector_readNotBlocked (db : Db) (cache : CacheState)
    (eid : String) (n : Int) (fname : Option String)
    (ver : FeatureVersionRow) (w : FeatureVectorRow)
    (hc : cacheGet cache "feature_vector" [eid, argOfInt (some n), argOfStr fname]
      = Option.none)
    (hn : n ≠ 0)
    (hver : db.versions.find? (fun v => (v.id : Int) == n) = some ver)
    (hw : findVec db.vectors ver.id eid = some w) :
    (getFeatureVector db cache eid (some n) fname).1
      = .ok ⟨w.entityId, w.featureValues, w.featureVersionId, w.computedAt⟩
    ∧ (checkFeatureVersionConsistency db ver.id
        = some ConsIssue.inconsistentStructure →
      (getFeatureVector db cache eid (some n) fname).2.2
        = [ConsIssue.inconsistentStructure]) := by
  unfold getFeatureVector
  simp only [hc]
  have h1 : truthyInt (some n) = true := by simp [truthyInt, hn]
  constructor
  · simp [h1, hver, hw]
  · intro hcons
    simp [h1, hver, hw, hcons]

/-- Witness for `getFeatureVector_readNotBlocked` on `dbInc`, whose version
1 is structurally inconsistent: the read still serves the vector and the
inconsistency appears only as a warning. -/
theorem getFeatureVector_readNotBlocked_w :
    (getFeatureVector dbInc [] "e1" (some 1) Option.none).1
      = .ok ⟨"e1", [("x", PyVal.int 1)], 1, 0⟩
    ∧ checkFeatureVersionConsistency dbInc 1
        = some ConsIssue.inconsistentStructure
    ∧ (getFeatureVector dbInc [] "e1" (some 1) Option.none).2.2
        = [ConsIssue.inconsistentStructure] := by
  have h := getFeatureVector_readNotBlocked dbInc [] "e1" 1 Option.none
    ⟨1, 1, "v1", "active", 0⟩ ⟨1, "e1", [("x", PyVal.int 1)], 0⟩
    (by decide) (by decide) (by decide) (by decide)
  exact ⟨h.1, by decide, h.2 (by decide)⟩


/-- Unfolding of `findVec` at a cons cell. -/
theorem findVec_cons (w : FeatureVectorRow) (l : List FeatureVectorRow)
    (vid : Nat) (e : String) :
    findVec (w :: l) vid e
      = if (w.featureVersionId == vid && (w.entityId == e)) = true then some w
        else findVec l vid e := by
  unfold findVec
  cases hb : (w.featureVersionId == vid && (w.entityId == e)) <;>
    simp [List.find?, hb]

/-- Overwriting the value map of the vector keyed `(vid, eid)` does not
change the lookup of any other composite key. -/
theorem findVec_setVecVals_ne (l : List FeatureVectorRow) (vid : Nat)
    (eid : String) (vals : Rec) (vid2 : Nat) (e2 : String)
    (h : vid2 ≠ vid ∨ e2 ≠ eid) :
    findVec (setVecVals l vid eid vals) vid2 e2 = findVec l vid2 e2 := by
  induction l with
  | nil => rfl
  | cons w ws ih =>
    by_cases hw : w.featureVersionId = vid ∧ w.entityId = eid
    · simp only [setVecVals, if_pos hw]
      have hq : (w.featureVersionId == vid2 && (w.entityId == e2)) = false := by
        rcases h with h | h
        · simp [hw.1, Ne.symm h]
        · simp [hw.2, Ne.symm h]
      rw [findVec_cons, findVec_cons]
      simp only [hq]
      simp
    · simp only [setVecVals, if_neg hw]
      rw [findVec_cons, findVec_cons]
      cases hq : (w.featureVersionId == vid2 && (w.entityId == e2)) <;>
        simp [hq, ih]

/-- Overwriting the value map of the vector keyed `(vid, eid)` makes the
lookup of that key return the overwritten row. -/
theorem findVec_setVecVals_self (l : List FeatureVectorRow) (vid : Nat)
    (eid : String) (vals : Rec) (w : FeatureVectorRow)
    (h : findVec l vid eid = some w) :
    findVec (setVecVals l vid eid vals) vid eid
      = some { w with featureValues := vals } := by
  induction l with
  | nil => exact absurd h (by simp [findVec])
  | cons w0 ws ih =>
    by_cases hw : w0.featureVersionId = vid ∧ w0.entityId = eid
    · have hp : (w0.featureVersionId == vid && (w0.entityId == eid)) = true := by
        simp [hw.1, hw.2]
      have hw0 : w0 = w := by
        rw [findVec_cons] at h
        simp only [hp, if_pos] at h
        exact Option.some.inj h
      subst hw0
      simp only [setVecVals, if_pos hw]
      rw [findVec_cons]
      simp [hp]
    · have hp : (w0.featureVersionId == vid && (w0.entityId == eid)) = false := by
        rcases not_and_or.mp hw with h1 | h1 <;> simp [h1]
      have htail : findVec ws vid eid = some w := by
        rw [findVec_cons] at h
        simpa [hp] using h
      simp only [setVecVals, if_neg hw]
      rw [findVec_cons]
      simp only [hp]
      simpa using ih htail

/-- One upsert leaves the lookup of every other composite key unchanged. -/
theorem findVec_upsertVec_ne (l : List FeatureVectorRow) (vid : Nat)
    (eid : String) (vals : Rec) (now : Nat) (vid2 : Nat) (e2 : String)
    (h : vid2 ≠ vid ∨ e2 ≠ eid) :
    findVec (upsertVec l vid eid vals now).1 vid2 e2 = findVec l vid2 e2 := by
  cases hx : findVec l vid eid with
  | some w0 =>
    simp only [upsertVec, hx]
    exact findVec_setVecVals_ne l vid eid vals vid2 e2 h
  | none =>
    simp only [upsertVec, hx]
    unfold findVec
    rw [List.find?_append]
    have hnew : List.find?
        (fun w : FeatureVectorRow => w.featureVersionId == vid2 && (w.entityId == e2))
        [⟨vid, eid, vals, now⟩] = Option.none := by
      have hb : (vid == vid2 && (eid == e2)) = false := by
        rcases h with h | h <;> simp [Ne.symm h]
      simp [List.find?, hb]
    rw [hnew, Option.or_none]

/-- After one upsert, the lookup of the upserted composite key returns a
row carrying exactly the new value map. -/
theorem findVec_upsertVec_self (l : List FeatureVectorRow) (vid : Nat)
    (eid : String) (vals : Rec) (now : Nat) :
    ∃ w, findVec (upsertVec l vid eid vals now).1 vid eid = some w
      ∧ w.featureValues = vals ∧ w.featureVersionId = vid
      ∧ w.entityId = eid := by
  cases hx : findVec l vid eid with
  | some w0 =>
    have hw : w0.featureVersionId = vid ∧ w0.entityId = eid := by
      have hp := List.find?_some (show List.find?
        (fun w => w.featureVersionId == vid && (w.entityId == eid)) l
          = some w0 from hx)
      simpa using hp
    refine ⟨{ w0 with featureValues := vals }, ?_, rfl, hw.1, hw.2⟩
    simp only [upsertVec, hx]
    exact findVec_setVecVals_self l vid eid vals w0 hx
  | none =>
    refine ⟨⟨vid, eid, vals, now⟩, ?_, rfl, rfl, rfl⟩
    simp only [upsertVec, hx]
    unfold findVec at hx ⊢
    rw [List.find?_append, hx]
    simp [List.find?]

/-- The upsert loop leaves every entity id it does not process untouched,
for every version id. -/
theorem applyRows_frame (vid : Nat) (key : String) (now : Nat) :
    ∀ (rows : List Rec) (l : List FeatureVectorRow) (e : String),
    (∀ row ∈ rows, PyVal.pyStr ((recGet row key).getD PyVal.none) ≠ e) →
    ∀ vid2, findVec (applyRows vid key now rows l).1 vid2 e
      = findVec l vid2 e := by
  intro rows
  induction rows with
  | nil => intro l e _ vid2; rfl
  | cons r rest ih =>
    intro l e h vid2
    simp only [applyRows]
    rw [ih _ e (fun row hm => h row (List.mem_cons_of_mem _ hm)) vid2]
    exact findVec_upsertVec_ne _ _ _ _ _ _ _
      (Or.inr (Ne.symm (h r (List.mem_cons_self _ _))))

/-- C7: a compute run never touches vectors of entities absent from its
result: for every entity id not among the run's computed entity ids, every
vector lookup is unchanged by the run. -/
theorem computeFeature_frame (db : Db) (fid : Nat) (version : String)
    (raw : List Rec) (f : FeatureRow) (e : String)
    (hf : findFeature db fid = some f)
    (he : e ∉ computedEntityIds raw f.computationLogic f.entityKey) :
    ∀ vid, findVec (computeFeature db fid version raw).2.vectors vid e
      = findVec db.vectors vid e := by
  intro vid
  unfold computeFeature
  simp only [hf]
  cases ht : findTable db f.rawTableId with
  | none => rfl
  | some t =>
    simp only []
    by_cases hk : f.entityKey ∈ dfColumns raw
    · have hkb : ((dfColumns raw).contains f.entityKey) = true := by simpa using hk
      simp only [hkb, Bool.not_true, Bool.false_eq_true, if_false]
      rw [applyRows_frame _ _ _ _ _ e ?hne vid, roc_vectors]
      case hne =>
        intro row hm hcontra
        exact he (hcontra ▸ List.mem_map_of_mem _ hm)
    · have hkb : ((dfColumns raw).contains f.entityKey) = false := by simpa using hk
      simp only [hkb, Bool.not_false, if_true]
      rw [roc_vectors]

/-- Witness for `computeFeature_frame`: after computing `{a, b}` under
version 1, a recompute of the same version on a batch containing only `a`
leaves `b`'s vector lookup unchanged, and `b`'s vector is still present. -/
theorem computeFeature_frame_w :
    findVec (computeFeature dbAfterAB 1 "v1" batchOnlyA).2.vectors 1 "b"
      = findVec dbAfterAB.vectors 1 "b"
    ∧ (findVec (computeFeature dbAfterAB 1 "v1" batchOnlyA).2.vectors 1 "b").isSome
      = true := by
  have h := computeFeature_frame dbAfterAB 1 "v1" batchOnlyA featAvg "b"
    (by decide) (by decide) 1
  exact ⟨h, by rw [h]; decide⟩

/-- When the processed entity ids are pairwise distinct, each processed
row's value map (minus the entity-key column) ends up in the store under
its entity id. -/
theorem applyRows_lookup (vid : Nat) (key : String) (now : Nat) :
    ∀ (rows : List Rec) (l : List FeatureVectorRow),
    ((rows.map (fun row => PyVal.pyStr ((recGet row key).getD PyVal.none))).Nodup) →
    ∀ row ∈ rows, ∃ w,
      findVec (applyRows vid key now rows l).1 vid
          (PyVal.pyStr ((recGet row key).getD PyVal.none)) = some w
        ∧ w.featureValues = row.filter (fun kv => kv.1 != key)
        ∧ w.featureVersionId = vid
        ∧ w.entityId = PyVal.pyStr ((recGet row key).getD PyVal.none) := by
  intro rows
  induction rows with
  | nil => intro l _ row hm; exact absurd hm (List.not_mem_nil _)
  | cons r rest ih =>
    intro l hnd row hm
    rw [List.map_cons, List.nodup_cons] at hnd
    rcases List.mem_cons.mp hm with rfl | hm2
    · obtain ⟨w, hw, hv, hvid, heid⟩ := findVec_upsertVec_self l vid
        (PyVal.pyStr ((recGet row key).getD PyVal.none))
        (row.filter (fun kv => kv.1 != key)) now
      refine ⟨w, ?_, hv, hvid, heid⟩
      simp only [applyRows]
      rw [applyRows_frame vid key now rest _
        (PyVal.pyStr ((recGet row key).getD PyVal.none)) ?hne vid]
      · exact hw
      case hne =>
        intro row2 hm2 hcontra
        exact hnd.1 (hcontra ▸ List.mem_map_of_mem _ hm2)
    · simp only [applyRows]
      exact ih _ hnd.2 row hm2

/-- Looking a key up in the graph of a function over a column list. -/
theorem recGet_graph (g : String → PyVal) (l : List String) (c : String) :
    recGet (l.map (fun x => (x, g x))) c
      = if c ∈ l then some (g c) else Option.none := by
  induction l with
  | nil => simp [recGet]
  | cons x xs ih =>
    simp only [List.map_cons, recGet]
    by_cases hx : x = c
    · subst hx
      simp
    · rw [if_neg hx, ih]
      by_cases hc : c ∈ xs
      · rw [if_pos hc, if_pos (List.mem_cons_of_mem _ hc)]
      · rw [if_neg hc, if_neg (by
          intro hcc
          rcases List.mem_cons.mp hcc with h1 | h1
          · exact hx h1.symm
          · exact hc h1)]

/-- Stripping the entity-key column from a result row whose remaining
columns all differ from the key. -/
theorem filterRow (key : String) (v : PyVal) (cols : List String)
    (g : String → PyVal) (hcols : ∀ c ∈ cols, (c != key) = true) :
    (((key, v) :: cols.map (fun c => (c, g c))).filter
        (fun kv => kv.1 != key))
      = cols.map (fun c => (c, g c)) := by
  rw [List.filter_cons]
  simp only [bne_self_eq_false, Bool.false_eq_true, if_false]
  exact List.filter_eq_self.mpr (fun kv hkv => by
    obtain ⟨c, hc, rfl⟩ := List.mem_map.mp hkv
    exact hcols c hc)

/-- C2 (amended): when the logic text selects the mean path (no `SELECT`,
contains `mean` or `avg`), the entity key is a batch column, and the
distinct key values have pairwise-distinct string forms, compute succeeds;
it processes one entity per distinct key value, and stores under each
entity a value map holding exactly the arithmetic mean of every non-key
column of float, int or boolean dtype (`numeric_only`; bools average as
0/1) — every other column is absent from the map (dropped by
`groupby().mean()`), not carried over as a first-seen value. -/
theorem computeFeature_mean (db : Db) (fid : Nat) (f : FeatureRow)
    (t : RawTableRow) (version : String) (raw : List Rec)
    (hf : findFeature db fid = some f)
    (ht : findTable db f.rawTableId = some t)
    (hsel : strContains (pyUpper f.computationLogic) "SELECT" = false)
    (hmean : (strContains (pyLower f.computationLogic) "mean"
        || strContains (pyLower f.computationLogic) "avg") = true)
    (hkey : f.entityKey ∈ dfColumns raw)
    (hids : ((groupKeys raw f.entityKey).map PyVal.pyStr).Nodup) :
    (∃ r, (computeFeature db fid version raw).1 = .ok r
        ∧ r.featureVersionId = (resolveOrCreateVersion db fid version).1.id
        ∧ r.entitiesProcessed = (groupKeys raw f.entityKey).length)
    ∧ ∀ v ∈ groupKeys raw f.entityKey, ∃ w,
        findVec (computeFeature db fid version raw).2.vectors
            (resolveOrCreateVersion db fid version).1.id (PyVal.pyStr v)
          = some w
        ∧ (∀ c ∈ aggCols raw f.entityKey,
            recGet w.featureValues c
              = some (groupMean raw f.entityKey v c))
        ∧ (∀ c, c ∉ aggCols raw f.entityKey →
            recGet w.featureValues c = Option.none) := by
  have hdf : computeResultDf raw f.computationLogic f.entityKey
      = groupbyMeanReset raw f.entityKey := by
    unfold computeResultDf executePythonLogic
    simp [hsel, hmean]
  have hkb : ((dfColumns raw).contains f.entityKey) = true := by simpa using hkey
  have hrowid : ∀ v : PyVal, PyVal.pyStr ((recGet
      ((f.entityKey, v) :: (aggCols raw f.entityKey).map
        (fun c => (c, groupMean raw f.entityKey v c))) f.entityKey).getD
      PyVal.none) = PyVal.pyStr v := by
    intro v
    simp [recGet]
  have hnd : ((groupbyMeanReset raw f.entityKey).map
      (fun row => PyVal.pyStr ((recGet row f.entityKey).getD PyVal.none))).Nodup := by
    have hmm : (groupbyMeanReset raw f.entityKey).map
        (fun row => PyVal.pyStr ((recGet row f.entityKey).getD PyVal.none))
        = (groupKeys raw f.entityKey).map PyVal.pyStr := by
      unfold groupbyMeanReset
      rw [List.map_map]
      exact List.map_congr_left (fun v _ => hrowid v)
    rw [hmm]
    exact hids
  unfold computeFeature
  simp only [hf, ht, hkb, Bool.not_true, Bool.false_eq_true, if_false, hdf]
  constructor
  · exact ⟨_, rfl, rfl, by simp [groupbyMeanReset]⟩
  · intro v hv
    have hrow : ((f.entityKey, v) :: (aggCols raw f.entityKey).map
        (fun c => (c, groupMean raw f.entityKey v c)))
        ∈ groupbyMeanReset raw f.entityKey := by
      unfold groupbyMeanReset
      exact List.mem_map_of_mem _ hv
    obtain ⟨w, hw, hvals, hwvid, hweid⟩ := applyRows_lookup
      (resolveOrCreateVersion db fid version).1.id f.entityKey
      (resolveOrCreateVersion db fid version).2.clock
      (groupbyMeanReset raw f.entityKey)
      (resolveOrCreateVersion db fid version).2.vectors hnd _ hrow
    rw [hrowid v] at hw
    have hvals2 : w.featureValues = (aggCols raw f.entityKey).map
        (fun c => (c, groupMean raw f.entityKey v c)) := by
      rw [hvals]
      exact filterRow f.entityKey v (aggCols raw f.entityKey) _
        (fun c hc => by
          have := List.of_mem_filter hc
          exact (Bool.and_eq_true _ _).mp this |>.1)
    refine ⟨w, ?_, ?_, ?_⟩
    · exact hw
    · intro c hc
      rw [hvals2, recGet_graph]
      simp [hc]
    · intro c hc
      rw [hvals2, recGet_graph]
      simp [hc]

/-- Counterexample for C2 as stated: on a batch with the non-numeric column
`tag`, the stored value map for entity `a` has no `tag` entry at all —
`groupby().mean()` drops the non-numeric column instead of carrying its
first-seen value (`"x"`). -/
theorem computeFeature_mean_cx :
    (computeFeature dbAvg 1 "v1" batchABTag).1 = .ok ⟨1, 2, 2⟩
    ∧ ((findVec (computeFeature dbAvg 1 "v1" batchABTag).2.vectors 1 "a").map
        (fun w => recGet w.featureValues "tag")) = some Option.none := by decide

/-- Witness for `computeFeature_mean` on the spec scenario batch extended
with a `tag` column, and on the bool-column batch: two entities processed,
`a`'s stored `amt` mean is 15, `tag` is absent from the stored map, and the
boolean `flag` column is kept and averaged (`a`'s mean is 1/2). -/
theorem computeFeature_mean_w :
    (∃ r, (computeFeature dbAvg 1 "v1" batchABTag).1 = .ok r
        ∧ r.entitiesProcessed = 2)
    ∧ (∃ w, findVec (computeFeature dbAvg 1 "v1" batchABTag).2.vectors 1 "a"
          = some w
        ∧ recGet w.featureValues "amt" = some (PyVal.float 15)
        ∧ recGet w.featureValues "tag" = Option.none)
    ∧ (∃ w, findVec (computeFeature dbAvg 1 "v1" batchABFlag).2.vectors 1 "a"
          = some w
        ∧ recGet w.featureValues "flag" = some (PyVal.float (1/2))) := by
  have h := computeFeature_mean dbAvg 1 featAvg ⟨1, "t", Option.none⟩ "v1"
    batchABTag (by decide) (by decide) (by decide) (by decide) (by decide)
    (by decide)
  obtain ⟨⟨r, hr, _, hrn⟩, hall⟩ := h
  obtain ⟨w, hw, hnum, hnon⟩ := hall (PyVal.str "a") (by decide)
  have h2 := computeFeature_mean dbAvg 1 featAvg ⟨1, "t", Option.none⟩ "v1"
    batchABFlag (by decide) (by decide) (by decide) (by decide) (by decide)
    (by decide)
  obtain ⟨w2, hw2, hnum2, _⟩ := h2.2 (PyVal.str "a") (by decide)
  have hvid : (resolveOrCreateVersion dbAvg 1 "v1").1.id = 1 := by decide
  rw [hvid] at hw hw2
  have hmean15 : groupMean batchABTag featAvg.entityKey (PyVal.str "a") "amt"
      = PyVal.float 15 := by
    simp [groupMean, groupRows, colCells, recGet, batchABTag, featAvg,
      PyVal.toRat]
    norm_num
  have hmeanHalf : groupMean batchABFlag featAvg.entityKey (PyVal.str "a") "flag"
      = PyVal.float (1/2) := by
    simp [groupMean, groupRows, colCells, recGet, batchABFlag, featAvg,
      PyVal.toRat]
  refine ⟨⟨r, hr, ?_⟩, ⟨w, hw, ?_, hnon "tag" (by decide)⟩, ⟨w2, hw2, ?_⟩⟩
  · rw [hrn]; decide
  · have hv := hnum "amt" (by decide)
    rw [hmean15] at hv
    exact hv
  · have hv := hnum2 "flag" (by decide)
    rw [hmeanHalf] at hv
    exact hv

/-- C1: the compute endpoint's cache invalidation
(`cache.clear_pattern(f"feature_vector:{feature_id}")`) matches the raw
pattern against md5-hashed cache keys, so it removes nothing: after a
successful compute for feature 1, the cached read for `e1` under feature
1's version survives and the next read is served from the stale cache
entry instead of missing. -/
theorem computeEndpoint_staleCacheSurvives :
    (computeEndpoint dbVec cacheOne 1 "v1" batchAB).1 = .ok ⟨1, 2, 2⟩
    ∧ cacheGet (computeEndpoint dbVec cacheOne 1 "v1" batchAB).2.2
        "feature_vector" ["e1", "1", ""] = some respCached
    ∧ (getFeatureVector (computeEndpoint dbVec cacheOne 1 "v1" batchAB).2.1
        (computeEndpoint dbVec cacheOne 1 "v1" batchAB).2.2
        "e1" (some 1) Option.none).1 = .ok respCached := by decide
